import Mathlib

/-!
Shallow embedding of `cvat/apps/engine/views.py` (CVAT HTTP view layer):
background-job orchestration for dataset export/import, job-status polling,
task destruction cleanup, the server share listing, and `DataChunkGetter`
validation.  Timestamps are modelled as integers (the code only compares
them), the RQ job queue is modelled by the fetched job value, and filesystem
effects are recorded explicitly in the outcome structures.
-/

/-- A background job as fetched from the RQ queue (`queue.fetch_job(rq_id)`).
Only the fields the views read are modelled.  `none` field values stand for
keys absent from `job.meta`. -/
structure RqJob where
  is_finished : Bool := false
  is_queued : Bool := false
  is_failed : Bool := false
  exc_info : String := ""
  /-- `job.meta.get('request_time', None)`, as an integer timestamp. -/
  meta_request_time : Option Int := none
  /-- `job.return_value` (path of the exported file). -/
  return_value : String := ""
  /-- `job.meta['status']` -/
  meta_status : Option String := none
  /-- `job.meta['progress']` (numeric value relayed untouched; its exact
  numeric type is irrelevant to the views, which never compute with it). -/
  meta_progress : Option Int := none
  /-- `job.meta['task_progress']` -/
  meta_task_progress : Option Int := none
  /-- `job.meta['tmp_file']` -/
  meta_tmp_file : Option String := none
  /-- `job.meta['tmp_file_descriptor']` -/
  meta_tmp_fd : Option Int := none
  deriving DecidableEq, Repr

/-- The dictionary built by `_get_rq_response`. -/
structure RqStatus where
  state : String
  message : Option String := none
  progress : Option Int := none
  deriving DecidableEq, Repr

/-- An HTTP response produced by one of the embedded views.
`raiseValidation` stands for a raised `serializers.ValidationError`
(rendered by the framework as HTTP 400), as opposed to a `Response`
constructed explicitly by the view code. -/
inductive HttpResp where
  | raiseValidation (msg : String)
  | sendfileResp (path : String)
  | code200
  | code201
  | code202
  | code202Data (d : RqStatus)
  | code400 (body : String)
  | code404
  | code405
  | code409 (body : String)
  | code500 (body : String)
  deriving DecidableEq, Repr

/-- `ProjectViewSet._get_rq_response(queue, job_id)`: reads the fetched job
(`none` when `fetch_job` returned no job) and builds the status dictionary.
The function only reads the job; it is pure, so the job is not modified. -/
def ProjectViewSet_get_rq_response (job : Option RqJob) : RqStatus :=
  match job with
  | none => { state := "Finished" }
  | some j =>
    if j.is_finished then { state := "Finished" }
    else if j.is_queued then { state := "Queued" }
    else if j.is_failed then { state := "Failed", message := some j.exc_info }
    else
      { state := "Started"
        message := some (j.meta_status.getD "")
        progress := some (j.meta_progress.getD 0) }

/-- `TaskViewSet._get_rq_response(queue, job_id)`: same case analysis, but in
the started case the message key is only set when `'status' in job.meta`, and
the progress is read from `job.meta.get('task_progress', 0.)`. -/
def TaskViewSet_get_rq_response (job : Option RqJob) : RqStatus :=
  match job with
  | none => { state := "Finished" }
  | some j =>
    if j.is_finished then { state := "Finished" }
    else if j.is_queued then { state := "Queued" }
    else if j.is_failed then { state := "Failed", message := some j.exc_info }
    else
      { state := "Started"
        message := j.meta_status
        progress := some (j.meta_task_progress.getD 0) }

/-- An export/import format plugin as returned by
`dm.views.get_export_formats()` / `get_import_formats()`:
only `DISPLAY_NAME` and `ENABLED` are read by the views. -/
structure Format where
  display_name : String
  enabled : Bool
  deriving DecidableEq, Repr

/-- `{f.DISPLAY_NAME: f for f in fmts}.get(name)`: a Python dict
comprehension keeps the LAST entry for a duplicated key, hence the
reversed search. -/
def find_format (fmts : List Format) (name : String) : Option Format :=
  fmts.reverse.find? (fun f => f.display_name = name)

/-- The arguments of a `queue.enqueue_call(...)` performed by a view, with
the metadata the view attaches to the job. -/
structure EnqueueSpec where
  job_id : String
  result_ttl : Option Int := none
  failure_ttl : Option Int := none
  meta_request_time : Option Int := none
  meta_tmp_file : Option String := none
  meta_tmp_fd : Option Int := none
  deriving DecidableEq, Repr

/-- The environment of one `_export_annotations(...)` call: everything the
function reads from the request, the queue and the database. -/
structure ExportEnv where
  formats : List Format
  format_name : String
  /-- the `action` query parameter, already lowercased by the caller -/
  exportAction : String
  rq_id : String
  /-- `queue.fetch_job(rq_id)` -/
  cached_job : Option RqJob
  /-- `isinstance(db_instance, Project)` -/
  is_project : Bool
  /-- `db_instance.updated_date` as an integer timestamp -/
  instance_updated : Int
  /-- `updated_date` of each of the project's tasks -/
  task_updates : List Int
  /-- `osp.exists(rq_job.return_value)` -/
  file_exists : Bool
  /-- `dm.views.PROJECT_CACHE_TTL.total_seconds()` -/
  project_cache_ttl : Int
  /-- `dm.views.TASK_CACHE_TTL.total_seconds()` -/
  task_cache_ttl : Int
  /-- `timezone.localtime()` at the time of the request -/
  now : Int
  deriving Repr

/-- The observable outcome of `_export_annotations`: the HTTP response, the
`enqueue_call` performed (if any), and whether the cached job was
cancelled / deleted. -/
structure ExportOutcome where
  response : HttpResp
  enqueued : Option EnqueueSpec := none
  cancelled_cached : Bool := false
  deleted_cached : Bool := false
  deriving DecidableEq, Repr

/-- `last_instance_update_time`: `timezone.localtime(db_instance.updated_date)`,
and for a project `max(tasks_update + [last_instance_update_time])` over the
project's tasks.  `localtime` only changes the display timezone, not the
instant, so it is the identity on the modelled timestamps. -/
def last_instance_update_time (env : ExportEnv) : Int :=
  if env.is_project then env.task_updates.foldl max env.instance_updated
  else env.instance_updated

/-- The TTL passed as `result_ttl` and `failure_ttl` to `enqueue_call`. -/
def export_ttl (env : ExportEnv) : Int :=
  if env.is_project then env.project_cache_ttl else env.task_cache_ttl

/-- The fall-through tail of `_export_annotations`: enqueue a fresh export
job with `meta={'request_time': timezone.localtime()}` and
`result_ttl=ttl, failure_ttl=ttl`, answering 202.  The `cancelled` /
`deleted` flags record what happened to the cached job before the
fall-through. -/
def export_enqueue_fresh (env : ExportEnv) (cancelled deleted : Bool) :
    ExportOutcome :=
  { response := .code202
    enqueued := some
      { job_id := env.rq_id
        result_ttl := some (export_ttl env)
        failure_ttl := some (export_ttl env)
        meta_request_time := some env.now }
    cancelled_cached := cancelled
    deleted_cached := deleted }

/-- `_export_annotations(db_instance, rq_id, request, format_name, action,
callback, filename)`.  The attachment-filename cosmetics of the `sendfile`
branch are elided (the response just records the sent file path); every
branch decision of the source is modelled. -/
def _export_annotations (env : ExportEnv) : ExportOutcome :=
  if ¬(env.exportAction = "" ∨ env.exportAction = "download") then
    { response := .raiseValidation "Unexpected action specified for the request" }
  else
    match find_format env.formats env.format_name with
    | none =>
      { response := .raiseValidation "Unknown format specified for the request" }
    | some fd =>
      if ¬fd.enabled then { response := .code405 }
      else
        match env.cached_job with
        | some job =>
          if job.meta_request_time = none ∨
              job.meta_request_time.getD 0 < last_instance_update_time env then
            -- rq_job.cancel(); rq_job.delete(); fall through to the enqueue
            export_enqueue_fresh env true true
          else if job.is_finished then
            if env.file_exists then
              if env.exportAction = "download" then
                { response := .sendfileResp job.return_value
                  deleted_cached := true }
              else { response := .code201 }
            else
              -- finished but the result file is gone: fall through, the
              -- cached job is neither cancelled nor deleted
              export_enqueue_fresh env false false
          else if job.is_failed then
            { response := .code500 job.exc_info, deleted_cached := true }
          else
            { response := .code202 }
        | none => export_enqueue_fresh env false false

/-- Python `str.startswith` on our string model. -/
def py_startswith (s pre : String) : Bool :=
  pre.data.isPrefixOf s.data

/-- One step bound for `replace_fuel`: each step consumes at least one
character of the scanned list, so `s.length` steps always suffice. -/
def replace_fuel (pat rep : List Char) : Nat → List Char → List Char
  | 0, s => s
  | _ + 1, [] => []
  | fuel + 1, c :: rest =>
    if pat ≠ [] ∧ pat.isPrefixOf (c :: rest) then
      rep ++ replace_fuel pat rep fuel ((c :: rest).drop pat.length)
    else c :: replace_fuel pat rep fuel rest

/-- Python `str.replace(pat, rep)`: left-to-right, non-overlapping
replacement of every occurrence (the views only use a nonempty `pat`). -/
def py_replace (s pat rep : String) : String :=
  ⟨replace_fuel pat.data rep.data s.data.length s.data⟩

/-- `'{}.{}'.format(CvatImportError.__module__, CvatImportError.__name__)`:
the prefix RQ puts before the exception text of a failed import job. -/
def import_error_marker : String :=
  "cvat.apps.dataset_manager.bindings.CvatImportError"

/-- The environment of one `_import_annotations(...)` /
`_import_project_dataset(...)` call. -/
structure ImportEnv where
  formats : List Format
  format_name : String
  rq_id : String
  /-- `queue.fetch_job(rq_id)` -/
  cached_job : Option RqJob
  /-- whether the uploaded-file serializer validates the request body -/
  serializer_valid : Bool
  /-- the serializer-provided error messages when it does not -/
  serializer_errors : String
  /-- the `mkstemp` filename for the uploaded file -/
  tmp_file : String
  /-- the `mkstemp` file descriptor -/
  tmp_fd : Int
  deriving Repr

/-- The observable outcome of an import view call. -/
structure ImportOutcome where
  response : HttpResp
  enqueued : Option EnqueueSpec := none
  deleted_cached : Bool := false
  /-- `os.close(meta['tmp_file_descriptor']); os.remove(meta['tmp_file'])` -/
  removed_tmp : Bool := false
  deriving DecidableEq, Repr

/-- `_import_annotations(request, rq_id, rq_func, pk, format_name)`. -/
def _import_annotations (env : ImportEnv) : ImportOutcome :=
  match find_format env.formats env.format_name with
  | none =>
    { response := .raiseValidation ("Unknown input format " ++ env.format_name) }
  | some fd =>
    if ¬fd.enabled then { response := .code405 }
    else
      match env.cached_job with
      | none =>
        if env.serializer_valid then
          { response := .code202
            enqueued := some
              { job_id := env.rq_id
                meta_tmp_file := some env.tmp_file
                meta_tmp_fd := some env.tmp_fd } }
        else { response := .raiseValidation env.serializer_errors }
      | some job =>
        if job.is_finished then
          { response := .code201, deleted_cached := true, removed_tmp := true }
        else if job.is_failed then
          -- RQ adds a prefix with the exception class name
          if py_startswith job.exc_info import_error_marker then
            { response := .code400
                (py_replace job.exc_info (import_error_marker ++ ": ") "")
              deleted_cached := true, removed_tmp := true }
          else
            { response := .code500 job.exc_info
              deleted_cached := true, removed_tmp := true }
        else { response := .code202 }

/-- `_import_project_dataset(request, rq_id, rq_func, pk, format_name)`. -/
def _import_project_dataset (env : ImportEnv) : ImportOutcome :=
  match find_format env.formats env.format_name with
  | none =>
    { response := .raiseValidation ("Unknown input format " ++ env.format_name) }
  | some fd =>
    if ¬fd.enabled then { response := .code405 }
    else
      match env.cached_job with
      | none =>
        if env.serializer_valid then
          { response := .code202
            enqueued := some
              { job_id := env.rq_id
                meta_tmp_file := some env.tmp_file
                meta_tmp_fd := some env.tmp_fd } }
        else { response := .raiseValidation env.serializer_errors }
      | some _ =>
        { response := .code409 "Import job already exists" }

/-- The observable outcome of the `action=import_status` branch of
`ProjectViewSet.dataset` (GET). -/
structure ImportStatusOutcome where
  response : HttpResp
  deleted_job : Bool := false
  removed_tmp : Bool := false
  deriving DecidableEq, Repr

/-- The `action=import_status` branch of `ProjectViewSet.dataset`:
`queue.fetch_job(f"/api/project/pk/dataset_import")`, then the
404 / 201 / 500 / 202-with-status case analysis. -/
def project_dataset_import_status (job : Option RqJob) : ImportStatusOutcome :=
  match job with
  | none => { response := .code404 }
  | some j =>
    if j.is_finished then
      { response := .code201, deleted_job := true, removed_tmp := true }
    else if j.is_failed then
      { response := .code500 j.exc_info, deleted_job := true, removed_tmp := true }
    else
      { response := .code202Data (ProjectViewSet_get_rq_response (some j)) }

/-- A filesystem directory relevant to task destruction: the task's own
directory (`instance.get_task_dirname()`) or a data record's directory
(`instance.data.get_data_dirname()`); both live in models code outside this
file, so they are abstracted as injective constructors. -/
inductive Dirname where
  | taskDir (task_id : Nat)
  | dataDir (data_id : Nat)
  deriving DecidableEq, Repr

/-- A `Task` row: its primary key and the foreign key to its `Data` row. -/
structure TaskRec where
  id : Nat
  data_id : Option Nat
  deriving DecidableEq, Repr

/-- The slice of database and filesystem state that
`TaskViewSet.perform_destroy` touches: the task rows, the data rows (by
primary key) and the set of existing media directories. -/
structure EngineWorld where
  tasks : List TaskRec
  datas : List Nat
  dirs : List Dirname
  deriving DecidableEq, Repr

/-- `TaskViewSet.perform_destroy(instance)`:
`super().perform_destroy` deletes the task row; then
`shutil.rmtree(task_dirname, ignore_errors=True)`; then, if the task had
data and `instance.data.tasks.all()` (the remaining tasks referencing that
data) is empty, the data directory is removed and the data row deleted.
The trailing `db_project.save()` only refreshes the project timestamp and
is not part of the modelled state. -/
def perform_destroy (w : EngineWorld) (inst : TaskRec) : EngineWorld :=
  let w1 : EngineWorld :=
    { w with tasks := w.tasks.filter (fun t => t.id ≠ inst.id) }
  let w2 : EngineWorld :=
    { w1 with dirs := w1.dirs.filter (fun d => d ≠ .taskDir inst.id) }
  match inst.data_id with
  | some d =>
    if w2.tasks.any (fun t => t.data_id = some d) then w2
    else
      { w2 with
          dirs := w2.dirs.filter (fun x => x ≠ .dataDir d)
          datas := w2.datas.filter (fun x => x ≠ d) }
  | none => w2

/-- `f"/api/project/{pk}/dataset_import"` (in `ProjectViewSet.dataset`). -/
def project_dataset_import_rq_id (pk : Nat) : String :=
  "/api/project/" ++ toString pk ++ "/dataset_import"

/-- `"/api/project/{}/dataset/{}".format(pk, format_name)`. -/
def project_dataset_export_rq_id (pk : Nat) (format_name : String) : String :=
  "/api/project/" ++ toString pk ++ "/dataset/" ++ format_name

/-- `"/api/projects/{}/annotations/{}".format(pk, format_name)`. -/
def project_annotations_rq_id (pk : Nat) (format_name : String) : String :=
  "/api/projects/" ++ toString pk ++ "/annotations/" ++ format_name

/-- `"/api/tasks/{}/annotations/{}".format(pk, format_name)`. -/
def task_annotations_export_rq_id (pk : Nat) (format_name : String) : String :=
  "/api/tasks/" ++ toString pk ++ "/annotations/" ++ format_name

/-- `"/api/tasks/{}/dataset/{}".format(pk, format_name)`. -/
def task_dataset_export_rq_id (pk : Nat) (format_name : String) : String :=
  "/api/tasks/" ++ toString pk ++ "/dataset/" ++ format_name

/-- `f"/api/tasks/{pk}"` (the id polled by `TaskViewSet.status`). -/
def task_status_rq_id (pk : Nat) : String :=
  "/api/tasks/" ++ toString pk

/-- `"{}@/api/tasks/{}/annotations/upload".format(request.user, pk)`. -/
def task_annotations_upload_rq_id (user : String) (pk : Nat) : String :=
  user ++ "@/api/tasks/" ++ toString pk ++ "/annotations/upload"

/-- `"{}@/api/jobs/{}/annotations/upload".format(request.user, pk)`. -/
def job_annotations_upload_rq_id (user : String) (pk : Nat) : String :=
  user ++ "@/api/jobs/" ++ toString pk ++ "/annotations/upload"

/-- The identifier shape asserted by the spec: `/api/<resource>/<id>/<operation>`
with slash-free components. -/
def isApiJobIdForm (s : String) : Prop :=
  ∃ resource idPart op : String,
    ('/' ∈ resource.data → False) ∧ ('/' ∈ idPart.data → False) ∧
    ('/' ∈ op.data → False) ∧
    s = "/api/" ++ resource ++ "/" ++ idPart ++ "/" ++ op

/-- Split a character list into its slash-separated components. -/
def split_slash (cs : List Char) : List (List Char) :=
  cs.foldr
    (fun c acc =>
      if c = '/' then [] :: acc
      else
        match acc with
        | [] => [[c]]
        | a :: as => (c :: a) :: as)
    [[]]

/-- `os.path.normpath` component processing for an absolute path: empty and
`.` components disappear, `..` pops the previous component (and is dropped
at the root). -/
def norm_components (comps : List (List Char)) : List (List Char) :=
  comps.foldl
    (fun stack comp =>
      if comp = [] ∨ comp = ['.'] then stack
      else if comp = ['.', '.'] then stack.dropLast
      else stack ++ [comp])
    []

/-- Reassemble an absolute path from its components. -/
def join_abs (comps : List (List Char)) : List Char :=
  if comps = [] then ['/']
  else comps.foldl (fun acc c => acc ++ '/' :: c) []

/-- `os.path.abspath` on an absolute input path (the share view always
passes one, since `SHARE_ROOT` is absolute): plain `normpath`. -/
def py_abspath (s : String) : String :=
  ⟨join_abs (norm_components (split_slash s.data))⟩

/-- `os.path.join(a, b)` restricted to the shapes the share view produces. -/
def py_join (a b : String) : String :=
  if py_startswith b "/" then b
  else if a = "" then b
  else if a.data.getLast? = some '/' then a ++ b
  else a ++ "/" ++ b

/-- The share-view state: `settings.SHARE_ROOT` (an absolute path without a
trailing slash) and the normalized absolute paths of the directories that
exist on disk (`os.path.isdir`). -/
structure ShareEnv where
  share_root : String
  dirs : List String
  deriving DecidableEq, Repr

/-- The result of `ServerViewSet.share`: a directory listing (of the named
directory) or the 400 "invalid directory" response.  The per-entry
scandir/serializer packaging carries no decision logic and is elided. -/
inductive ShareResult where
  | listing (dir : String)
  | badRequest (param : String)
  deriving DecidableEq, Repr

/-- `param = request.query_params.get('directory', '/')`, then one leading
slash is stripped. -/
def share_param (directory_param : Option String) : String :=
  let param0 := directory_param.getD "/"
  if py_startswith param0 "/" then ⟨param0.data.drop 1⟩ else param0

/-- `directory = os.path.abspath(os.path.join(settings.SHARE_ROOT, param))`. -/
def share_directory (env : ShareEnv) (directory_param : Option String) : String :=
  py_abspath (py_join env.share_root (share_param directory_param))

/-- `ServerViewSet.share(request)`:
lists the computed directory when `directory.startswith(SHARE_ROOT)` and the
directory exists, otherwise answers 400. -/
def ServerViewSet_share (env : ShareEnv) (directory_param : Option String) :
    ShareResult :=
  let directory := share_directory env directory_param
  if py_startswith directory env.share_root = true ∧ directory ∈ env.dirs then
    .listing directory
  else .badRequest (share_param directory_param)

/-- The containment property the spec asserts: the normalized absolute path
is `SHARE_ROOT` itself or lies strictly below it. -/
def lies_under (d root : String) : Bool :=
  d == root || py_startswith d (root ++ "/")

/-- A Python exception raised by `DataChunkGetter`: a DRF `ValidationError`,
a DRF `NotFound`, or a `TypeError` (raised by comparing `None` with an
integer). -/
inductive PyErr where
  | validation (msg : String)
  | notFoundErr (msg : String)
  | typeErr
  deriving DecidableEq, Repr

/-- `FrameProvider.Quality`. -/
inductive FrameQuality where
  | compressed
  | original
  deriving DecidableEq, Repr

/-- The state of a constructed `DataChunkGetter`. -/
structure DataChunkGetter where
  type : String
  number : Option Int
  quality : FrameQuality
  dimension : String
  deriving DecidableEq, Repr

/-- `('chunk', 'frame', 'preview', 'context_image')` -/
def possible_data_type_values : List String :=
  ["chunk", "frame", "preview", "context_image"]

/-- `('compressed', 'original')` -/
def possible_quality_values : List String :=
  ["compressed", "original"]

/-- `DataChunkGetter.__init__(data_type, data_num, data_quality, task_dim)`.
`none` models an absent (or empty, hence falsy) query parameter; `data_num`
is modelled already parsed as an integer (`int(data_num)`). -/
def DataChunkGetter_init (data_type : Option String) (data_num : Option Int)
    (data_quality : String) (task_dim : String) :
    Except PyErr DataChunkGetter :=
  let dt := data_type.getD ""
  if data_type = none ∨ dt ∉ possible_data_type_values then
    .error (.validation "Data type not specified or has wrong value")
  else if dt = "chunk" ∨ dt = "frame" then
    if data_num = none then
      .error (.validation "Number is not specified")
    else if data_quality ∉ possible_quality_values then
      .error (.validation "Wrong quality value")
    else
      .ok
        { type := dt, number := data_num
          quality :=
            if data_quality = "compressed" then .compressed else .original
          dimension := task_dim }
  else
    .ok
      { type := dt, number := data_num
        quality :=
          if data_quality = "compressed" then .compressed else .original
        dimension := task_dim }

/-- The environment of a `DataChunkGetter.__call__`: whether `db_data` is
present, the external `FrameProvider.get_chunk_number` function, and whether
a context image related to the requested frame exists. -/
structure ServeEnv where
  db_data_present : Bool
  chunk_number_of : Int → Int
  context_image_exists : Bool

/-- The data served by a successful `DataChunkGetter.__call__`.  The actual
buffer/sendfile payloads come from `FrameProvider` (outside this file); the
response records which piece of data was served. -/
inductive ServeResp where
  | chunkData (n : Int) (q : FrameQuality)
  | frameData (n : Int) (q : FrameQuality)
  | previewData
  | contextImageData (n : Int)
  | ctxNotFound404
  | unknownType400 (t : String)
  deriving DecidableEq, Repr

/-- `DataChunkGetter.__call__(request, start, stop, db_data)`.  The chained
Python comparison `a <= self.number <= b` raises `TypeError` when
`self.number` is `None`. -/
def DataChunkGetter_call (g : DataChunkGetter) (env : ServeEnv)
    (start stop : Int) : Except PyErr ServeResp :=
  if ¬env.db_data_present then .error (.notFoundErr "Cannot find requested data")
  else if g.type = "chunk" then
    let start_chunk := env.chunk_number_of start
    let stop_chunk := env.chunk_number_of stop
    match g.number with
    | none => .error .typeErr
    | some n =>
      if ¬(start_chunk ≤ n ∧ n ≤ stop_chunk) then
        .error (.validation ("The chunk number should be in [" ++
          toString start_chunk ++ ", " ++ toString stop_chunk ++ "] range"))
      else .ok (.chunkData n g.quality)
  else if g.type = "frame" then
    match g.number with
    | none => .error .typeErr
    | some n =>
      if ¬(start ≤ n ∧ n ≤ stop) then
        .error (.validation ("The frame number should be in [" ++
          toString start ++ ", " ++ toString stop ++ "] range"))
      else .ok (.frameData n g.quality)
  else if g.type = "preview" then .ok .previewData
  else if g.type = "context_image" then
    match g.number with
    | none => .error .typeErr
    | some n =>
      if ¬(start ≤ n ∧ n ≤ stop) then
        .error (.validation ("The frame number should be in [" ++
          toString start ++ ", " ++ toString stop ++ "] range"))
      else if env.context_image_exists then .ok (.contextImageData n)
      else .ok .ctxNotFound404
  else .ok (.unknownType400 g.type)

/-- The shape of the identifiers the spec describes as beginning with
`/api/`. -/
def starts_with_api (s : String) : Prop :=
  ∃ rest, s = "/api/" ++ rest

/-- A registered, enabled demo export/import format. -/
def demo_formats : List Format :=
  [{ display_name := "CVAT for images 1.1", enabled := true }]

/-- A finished cached export job whose `request_time` is newer than the
exported instance but whose result file is gone. -/
def export_job_c1 : RqJob :=
  { is_finished := true, meta_request_time := some 100
    return_value := "/tmp/out.zip" }

/-- Export environment: fresh finished cached job, result file missing. -/
def export_env_c1 : ExportEnv :=
  { formats := demo_formats
    format_name := "CVAT for images 1.1"
    exportAction := ""
    rq_id := "/api/tasks/3/dataset/CVAT for images 1.1"
    cached_job := some export_job_c1
    is_project := false
    instance_updated := 50
    task_updates := []
    file_exists := false
    project_cache_ttl := 10800
    task_cache_ttl := 3600
    now := 200 }

/-- Export environment naming a format that is not registered. -/
def export_env_c3 : ExportEnv :=
  { export_env_c1 with
      format_name := "Nonexistent format 9.9"
      cached_job := none }

/-- A failed import job whose captured exception is not a
`CvatImportError`. -/
def failed_import_job_c2 : RqJob :=
  { is_failed := true, exc_info := "ValueError: boom"
    meta_tmp_file := some "/tmp/cvat_3a", meta_tmp_fd := some 7 }

/-- Import environment polling the failed job `failed_import_job_c2`. -/
def import_env_c2 : ImportEnv :=
  { formats := demo_formats
    format_name := "CVAT for images 1.1"
    rq_id := task_annotations_upload_rq_id "admin" 3
    cached_job := some failed_import_job_c2
    serializer_valid := true
    serializer_errors := ""
    tmp_file := "/tmp/cvat_3b"
    tmp_fd := 8 }

/-- A share root and one existing directory that is a sibling of the root
whose name extends the root's final component. -/
def share_env_c8 : ShareEnv :=
  { share_root := "/home/django/share", dirs := ["/home/django/share2"] }

/-- A `context_image` getter constructed without a number (the constructor
only demands a number for `chunk` and `frame`). -/
def ctx_getter_c9 : DataChunkGetter :=
  { type := "context_image", number := none, quality := .original
    dimension := "2d" }

/-- A serving environment with data present and a context image available. -/
def serve_env_c9 : ServeEnv :=
  { db_data_present := true
    chunk_number_of := fun _ => 0
    context_image_exists := true }
/-- C5: the polling helpers relay the fetched job state: Finished when the
job is absent or finished, Queued when queued, Failed with the captured
exception text when failed, otherwise Started with message/progress taken
from the job metadata.  Both helpers are pure functions of the fetched job,
so the job itself is never modified. -/
theorem rq_response_relays_job_state (job : Option RqJob) :
    ((job = none ∨ (∃ j, job = some j ∧ j.is_finished = true)) →
      (ProjectViewSet_get_rq_response job).state = "Finished" ∧
      (TaskViewSet_get_rq_response job).state = "Finished") ∧
    (∀ j, job = some j → j.is_finished = false → j.is_queued = true →
      (ProjectViewSet_get_rq_response job).state = "Queued" ∧
      (TaskViewSet_get_rq_response job).state = "Queued") ∧
    (∀ j, job = some j → j.is_finished = false → j.is_queued = false →
      j.is_failed = true →
      ProjectViewSet_get_rq_response job =
        { state := "Failed", message := some j.exc_info } ∧
      TaskViewSet_get_rq_response job =
        { state := "Failed", message := some j.exc_info }) ∧
    (∀ j, job = some j → j.is_finished = false → j.is_queued = false →
      j.is_failed = false →
      ProjectViewSet_get_rq_response job =
        { state := "Started", message := some (j.meta_status.getD ""),
          progress := some (j.meta_progress.getD 0) } ∧
      TaskViewSet_get_rq_response job =
        { state := "Started", message := j.meta_status,
          progress := some (j.meta_task_progress.getD 0) }) := by
  refine ⟨?_, ?_, ?_, ?_⟩
  · rintro (rfl | ⟨j, rfl, hfin⟩)
    · exact ⟨rfl, rfl⟩
    · simp [ProjectViewSet_get_rq_response, TaskViewSet_get_rq_response, hfin]
  · rintro j rfl hfin hq
    simp [ProjectViewSet_get_rq_response, TaskViewSet_get_rq_response, hfin, hq]
  · rintro j rfl hfin hq hfail
    simp [ProjectViewSet_get_rq_response, TaskViewSet_get_rq_response,
      hfin, hq, hfail]
  · rintro j rfl hfin hq hfail
    simp [ProjectViewSet_get_rq_response, TaskViewSet_get_rq_response,
      hfin, hq, hfail]

/-- Witness for `rq_response_relays_job_state` at a concrete started job. -/
theorem rq_response_relays_job_state_witness :
    ProjectViewSet_get_rq_response
        (some { is_failed := false, meta_status := some "working",
                meta_progress := some 40 }) =
      { state := "Started", message := some "working", progress := some 40 } ∧
    TaskViewSet_get_rq_response
        (some { is_failed := false, meta_status := some "working",
                meta_task_progress := some 7 }) =
      { state := "Started", message := some "working", progress := some 7 } := by
  constructor
  · have h := (rq_response_relays_job_state
      (some { is_failed := false, meta_status := some "working",
              meta_progress := some 40 })).2.2.2
    exact (h _ rfl rfl rfl rfl).1
  · have h := (rq_response_relays_job_state
      (some { is_failed := false, meta_status := some "working",
              meta_task_progress := some 7 })).2.2.2
    exact (h _ rfl rfl rfl rfl).2


/-- Reduction of `_export_annotations` once the action is valid, the format
is known and enabled, and a cached job was fetched. -/
theorem export_annotations_reduction (env : ExportEnv) (fd : Format)
    (j : RqJob)
    (hact : env.exportAction = "" ∨ env.exportAction = "download")
    (hfmt : find_format env.formats env.format_name = some fd)
    (hen : fd.enabled = true)
    (hjob : env.cached_job = some j) :
    _export_annotations env =
      (if j.meta_request_time = none ∨
          j.meta_request_time.getD 0 < last_instance_update_time env then
        export_enqueue_fresh env true true
      else if j.is_finished then
        (if env.file_exists then
          (if env.exportAction = "download" then
            { response := .sendfileResp j.return_value, deleted_cached := true }
          else { response := .code201 })
        else export_enqueue_fresh env false false)
      else if j.is_failed then
        { response := .code500 j.exc_info, deleted_cached := true }
      else { response := .code202 }) := by
  unfold _export_annotations
  rw [if_neg (not_not_intro hact), hfmt]
  show (if ¬fd.enabled then _ else _) = _
  rw [if_neg (by simp [hen]), hjob]

/-- C1 (amended): for an export request with a cached job of the same id
(and a known, enabled format and a valid action): when the job's
`request_time` is missing or older than the last update time of the
exported resource, the cached job is cancelled and deleted and a fresh
export job is enqueued with the configured cache TTL as both result and
failure TTL; otherwise, when the cached job is finished but its result file
no longer exists, a fresh export job is likewise enqueued (the cached job
is neither cancelled nor deleted); in every other case the cached job's
state answers the request without a new enqueue. -/
theorem export_cache_reuse_policy (env : ExportEnv) (fd : Format) (j : RqJob)
    (hact : env.exportAction = "" ∨ env.exportAction = "download")
    (hfmt : find_format env.formats env.format_name = some fd)
    (hen : fd.enabled = true)
    (hjob : env.cached_job = some j) :
    (j.meta_request_time = none ∨
        j.meta_request_time.getD 0 < last_instance_update_time env →
      _export_annotations env =
        { response := .code202
          enqueued := some
            { job_id := env.rq_id
              result_ttl := some (export_ttl env)
              failure_ttl := some (export_ttl env)
              meta_request_time := some env.now }
          cancelled_cached := true
          deleted_cached := true }) ∧
    (¬(j.meta_request_time = none ∨
        j.meta_request_time.getD 0 < last_instance_update_time env) →
      (j.is_finished = true → env.file_exists = false →
        (_export_annotations env).enqueued = some
          { job_id := env.rq_id
            result_ttl := some (export_ttl env)
            failure_ttl := some (export_ttl env)
            meta_request_time := some env.now } ∧
        (_export_annotations env).cancelled_cached = false ∧
        (_export_annotations env).deleted_cached = false) ∧
      (j.is_finished = true → env.file_exists = true →
        (_export_annotations env).enqueued = none) ∧
      (j.is_finished = false →
        (_export_annotations env).enqueued = none)) := by
  rw [export_annotations_reduction env fd j hact hfmt hen hjob]
  constructor
  · intro hstale
    rw [if_pos hstale]
    rfl
  · intro hfresh
    rw [if_neg hfresh]
    refine ⟨?_, ?_, ?_⟩
    · intro hfin hfile
      rw [hfin, if_pos rfl, hfile, if_neg (by simp)]
      exact ⟨rfl, rfl, rfl⟩
    · intro hfin hfile
      rw [hfin, if_pos rfl, hfile, if_pos rfl]
      rcases eq_or_ne env.exportAction "download" with hdl | hdl
      · rw [if_pos hdl]
      · rw [if_neg hdl]
    · intro hfin
      rw [hfin, if_neg (by simp)]
      rcases hfail : j.is_failed with _ | _
      · rw [if_neg (by simp)]
      · rw [if_pos rfl]

/-- C1 (counterexample): a cached export job whose `request_time` is newer
than the resource's last update (the claim's "otherwise" case) still
triggers the enqueue of a new export job, because the job is finished and
its result file no longer exists. -/
theorem export_cache_reuse_counterexample :
    export_env_c1.cached_job = some export_job_c1 ∧
    ¬(export_job_c1.meta_request_time = none ∨
        export_job_c1.meta_request_time.getD 0 <
          last_instance_update_time export_env_c1) ∧
    (_export_annotations export_env_c1).enqueued ≠ none := by decide

/-- Witness for `export_cache_reuse_policy` at `export_env_c1`. -/
theorem export_cache_reuse_policy_witness :
    (_export_annotations export_env_c1).enqueued = some
      { job_id := export_env_c1.rq_id
        result_ttl := some (export_ttl export_env_c1)
        failure_ttl := some (export_ttl export_env_c1)
        meta_request_time := some export_env_c1.now } ∧
    (_export_annotations export_env_c1).cancelled_cached = false := by
  have h := export_cache_reuse_policy export_env_c1
    { display_name := "CVAT for images 1.1", enabled := true } export_job_c1
    (Or.inl rfl) (by decide) rfl rfl
  have h2 := (h.2 (by decide)).1 rfl rfl
  exact ⟨h2.1, h2.2.1⟩

/-- C2 (amended): whenever a polled background job is failed, the view
deletes the job and responds with the captured exception text: the
annotation-import view answers 400 with the `CvatImportError`-prefix
stripped when the text carries that prefix and 500 with the raw text
otherwise; the export view and the project dataset import-status view
answer 500 with the raw text. -/
theorem failed_job_relay :
    (∀ (env : ImportEnv) (fd : Format) (j : RqJob),
      find_format env.formats env.format_name = some fd → fd.enabled = true →
      env.cached_job = some j → j.is_finished = false → j.is_failed = true →
      (_import_annotations env).deleted_cached = true ∧
      (_import_annotations env).removed_tmp = true ∧
      (py_startswith j.exc_info import_error_marker = true →
        (_import_annotations env).response =
          .code400 (py_replace j.exc_info (import_error_marker ++ ": ") "")) ∧
      (py_startswith j.exc_info import_error_marker = false →
        (_import_annotations env).response = .code500 j.exc_info)) ∧
    (∀ (env : ExportEnv) (fd : Format) (j : RqJob),
      env.exportAction = "" ∨ env.exportAction = "download" →
      find_format env.formats env.format_name = some fd → fd.enabled = true →
      env.cached_job = some j →
      ¬(j.meta_request_time = none ∨
          j.meta_request_time.getD 0 < last_instance_update_time env) →
      j.is_finished = false → j.is_failed = true →
      (_export_annotations env).response = .code500 j.exc_info ∧
      (_export_annotations env).deleted_cached = true) ∧
    (∀ j : RqJob, j.is_finished = false → j.is_failed = true →
      project_dataset_import_status (some j) =
        { response := .code500 j.exc_info
          deleted_job := true, removed_tmp := true }) := by
  refine ⟨?_, ?_, ?_⟩
  · intro env fd j hfmt hen hjob hfin hfail
    have hred : _import_annotations env =
        (if py_startswith j.exc_info import_error_marker then
          { response := .code400
              (py_replace j.exc_info (import_error_marker ++ ": ") "")
            deleted_cached := true, removed_tmp := true }
        else
          { response := .code500 j.exc_info
            deleted_cached := true, removed_tmp := true }) := by
      unfold _import_annotations
      rw [hfmt]
      show (if ¬fd.enabled then _ else _) = _
      rw [if_neg (by simp [hen]), hjob]
      show (if j.is_finished then _ else _) = _
      rw [hfin, if_neg (by simp), hfail, if_pos rfl]
    rcases hpre : py_startswith j.exc_info import_error_marker with _ | _
    · rw [hred, hpre, if_neg (by simp)]
      exact ⟨rfl, rfl, fun h => absurd h (by simp), fun _ => rfl⟩
    · rw [hred, hpre, if_pos rfl]
      exact ⟨rfl, rfl, fun _ => rfl, fun h => absurd h (by simp)⟩
  · intro env fd j hact hfmt hen hjob hfresh hfin hfail
    rw [export_annotations_reduction env fd j hact hfmt hen hjob,
      if_neg hfresh, hfin, if_neg (by simp), hfail, if_pos rfl]
    exact ⟨rfl, rfl⟩
  · intro j hfin hfail
    unfold project_dataset_import_status
    show (if j.is_finished = true then _ else _) = _
    rw [hfin, if_neg (by simp), hfail, if_pos rfl]

/-- C2 (counterexample): a failed annotation-import job whose captured
exception is a plain `ValueError` is answered with status 500, not the 400
the claim assigns to import jobs. -/
theorem failed_import_relay_counterexample :
    (_import_annotations import_env_c2).response = .code500 "ValueError: boom" ∧
    HttpResp.code500 "ValueError: boom" ≠ HttpResp.code400 "ValueError: boom" := by
  decide

/-- Witness for `failed_job_relay` at the concrete failed import job of
`import_env_c2` and a concrete failed import-status job. -/
theorem failed_job_relay_witness :
    (_import_annotations import_env_c2).deleted_cached = true ∧
    (_import_annotations import_env_c2).response = .code500 "ValueError: boom" ∧
    project_dataset_import_status (some failed_import_job_c2) =
      { response := .code500 "ValueError: boom"
        deleted_job := true, removed_tmp := true } := by
  have h := failed_job_relay
  have h1 := h.1 import_env_c2
    { display_name := "CVAT for images 1.1", enabled := true }
    failed_import_job_c2 (by decide) rfl rfl rfl rfl
  have h3 := h.2.2 failed_import_job_c2 rfl rfl
  exact ⟨h1.1, h1.2.2.2 (by decide), h3⟩

/-- C3 (amended): a format name not among the registered formats makes the
operation raise a `serializers.ValidationError` (surfacing as HTTP 400, not
405) without enqueuing anything; a registered but disabled format makes it
answer HTTP 405, also without enqueuing anything.  This holds for
`_export_annotations`, `_import_annotations` and `_import_project_dataset`. -/
theorem format_validation_blocks_enqueue :
    (∀ env : ExportEnv,
      (env.exportAction = "" ∨ env.exportAction = "download") →
      (find_format env.formats env.format_name = none →
        (_export_annotations env).response =
          .raiseValidation "Unknown format specified for the request" ∧
        (_export_annotations env).enqueued = none) ∧
      (∀ fd, find_format env.formats env.format_name = some fd →
        fd.enabled = false →
        (_export_annotations env).response = .code405 ∧
        (_export_annotations env).enqueued = none)) ∧
    (∀ env : ImportEnv,
      (find_format env.formats env.format_name = none →
        (_import_annotations env).response =
          .raiseValidation ("Unknown input format " ++ env.format_name) ∧
        (_import_annotations env).enqueued = none ∧
        (_import_project_dataset env).response =
          .raiseValidation ("Unknown input format " ++ env.format_name) ∧
        (_import_project_dataset env).enqueued = none) ∧
      (∀ fd, find_format env.formats env.format_name = some fd →
        fd.enabled = false →
        (_import_annotations env).response = .code405 ∧
        (_import_annotations env).enqueued = none ∧
        (_import_project_dataset env).response = .code405 ∧
        (_import_project_dataset env).enqueued = none)) := by
  constructor
  · intro env hact
    constructor
    · intro hfmt
      have hred : _export_annotations env =
          { response :=
              .raiseValidation "Unknown format specified for the request" } := by
        unfold _export_annotations
        rw [if_neg (not_not_intro hact), hfmt]
      rw [hred]
      exact ⟨rfl, rfl⟩
    · intro fd hfmt hdis
      have hred : _export_annotations env = { response := .code405 } := by
        unfold _export_annotations
        rw [if_neg (not_not_intro hact), hfmt]
        show (if ¬fd.enabled then _ else _) = _
        rw [if_pos (by simp [hdis])]
      rw [hred]
      exact ⟨rfl, rfl⟩
  · intro env
    constructor
    · intro hfmt
      have hred1 : _import_annotations env =
          { response :=
              .raiseValidation ("Unknown input format " ++ env.format_name) } := by
        unfold _import_annotations
        rw [hfmt]
      have hred2 : _import_project_dataset env =
          { response :=
              .raiseValidation ("Unknown input format " ++ env.format_name) } := by
        unfold _import_project_dataset
        rw [hfmt]
      rw [hred1, hred2]
      exact ⟨rfl, rfl, rfl, rfl⟩
    · intro fd hfmt hdis
      have hred1 : _import_annotations env = { response := .code405 } := by
        unfold _import_annotations
        rw [hfmt]
        show (if ¬fd.enabled then _ else _) = _
        rw [if_pos (by simp [hdis])]
      have hred2 : _import_project_dataset env = { response := .code405 } := by
        unfold _import_project_dataset
        rw [hfmt]
        show (if ¬fd.enabled then _ else _) = _
        rw [if_pos (by simp [hdis])]
      rw [hred1, hred2]
      exact ⟨rfl, rfl, rfl, rfl⟩

/-- C3 (counterexample): an export request naming an unregistered format
raises a `ValidationError` — it does not answer HTTP 405. -/
theorem unknown_format_counterexample :
    (_export_annotations export_env_c3).response =
      .raiseValidation "Unknown format specified for the request" ∧
    HttpResp.raiseValidation "Unknown format specified for the request" ≠
      HttpResp.code405 := by decide

/-- Witness for `format_validation_blocks_enqueue` at `export_env_c3` and a
disabled concrete format. -/
theorem format_validation_blocks_enqueue_witness :
    ((_export_annotations export_env_c3).response =
        .raiseValidation "Unknown format specified for the request" ∧
      (_export_annotations export_env_c3).enqueued = none) ∧
    (_import_annotations
        { formats := [{ display_name := "LabelMe 3.0", enabled := false }]
          format_name := "LabelMe 3.0"
          rq_id := task_annotations_upload_rq_id "admin" 3
          cached_job := none
          serializer_valid := true
          serializer_errors := ""
          tmp_file := "/tmp/cvat_3c"
          tmp_fd := 9 }).response = .code405 := by
  constructor
  · exact (format_validation_blocks_enqueue.1 export_env_c3
      (Or.inl rfl)).1 (by decide)
  · exact ((format_validation_blocks_enqueue.2
      { formats := [{ display_name := "LabelMe 3.0", enabled := false }]
        format_name := "LabelMe 3.0"
        rq_id := task_annotations_upload_rq_id "admin" 3
        cached_job := none
        serializer_valid := true
        serializer_errors := ""
        tmp_file := "/tmp/cvat_3c"
        tmp_fd := 9 }).2
      { display_name := "LabelMe 3.0", enabled := false } (by decide) rfl).1

/-- Reduction of `perform_destroy` for a task without attached data. -/
theorem perform_destroy_eq_none (w : EngineWorld) (inst : TaskRec)
    (hd : inst.data_id = none) :
    perform_destroy w inst =
      { tasks := w.tasks.filter (fun t => t.id ≠ inst.id)
        datas := w.datas
        dirs := w.dirs.filter (fun x => x ≠ Dirname.taskDir inst.id) } := by
  unfold perform_destroy
  rw [hd]

/-- Reduction of `perform_destroy` for a task with attached data `d`. -/
theorem perform_destroy_eq_some (w : EngineWorld) (inst : TaskRec) (d : Nat)
    (hd : inst.data_id = some d) :
    perform_destroy w inst =
      (if (w.tasks.filter (fun t => t.id ≠ inst.id)).any
          (fun t => t.data_id = some d) then
        { tasks := w.tasks.filter (fun t => t.id ≠ inst.id)
          datas := w.datas
          dirs := w.dirs.filter (fun x => x ≠ Dirname.taskDir inst.id) }
      else
        { tasks := w.tasks.filter (fun t => t.id ≠ inst.id)
          datas := w.datas.filter (fun x => x ≠ d)
          dirs := (w.dirs.filter
              (fun x => x ≠ Dirname.taskDir inst.id)).filter
            (fun x => x ≠ Dirname.dataDir d) }) := by
  unfold perform_destroy
  rw [hd]

/-- C4: destroying a task removes the task's own directory; when the task
had attached data and no other task still references that data, the data
directory is removed and the data row deleted; when another task still
references it, the data rows and the data directory are untouched. -/
theorem perform_destroy_cleanup (w : EngineWorld) (inst : TaskRec) :
    Dirname.taskDir inst.id ∉ (perform_destroy w inst).dirs ∧
    (∀ d, inst.data_id = some d →
      (¬(∃ t ∈ w.tasks, t.id ≠ inst.id ∧ t.data_id = some d) →
        Dirname.dataDir d ∉ (perform_destroy w inst).dirs ∧
        d ∉ (perform_destroy w inst).datas) ∧
      ((∃ t ∈ w.tasks, t.id ≠ inst.id ∧ t.data_id = some d) →
        (perform_destroy w inst).datas = w.datas ∧
        (Dirname.dataDir d ∈ (perform_destroy w inst).dirs ↔
          Dirname.dataDir d ∈ w.dirs))) ∧
    (inst.data_id = none → (perform_destroy w inst).datas = w.datas) := by
  refine ⟨?_, ?_, ?_⟩
  · cases hd : inst.data_id with
    | none => simp [perform_destroy_eq_none w inst hd, List.mem_filter]
    | some d =>
      rw [perform_destroy_eq_some w inst d hd]
      by_cases hc : (w.tasks.filter (fun t => t.id ≠ inst.id)).any
          (fun t => t.data_id = some d) = true
      · rw [if_pos hc]
        simp [List.mem_filter]
      · rw [if_neg hc]
        simp [List.mem_filter]
  · intro d hd
    have hcond : ((w.tasks.filter (fun t => t.id ≠ inst.id)).any
        (fun t => t.data_id = some d) = true) ↔
        (∃ t ∈ w.tasks, t.id ≠ inst.id ∧ t.data_id = some d) := by
      simp [List.mem_filter, and_assoc]
    constructor
    · intro hno
      rw [perform_destroy_eq_some w inst d hd,
        if_neg (fun h => hno (hcond.mp h))]
      exact ⟨by simp [List.mem_filter], by simp [List.mem_filter]⟩
    · intro hyes
      rw [perform_destroy_eq_some w inst d hd, if_pos (hcond.mpr hyes)]
      refine ⟨rfl, ?_⟩
      simp [List.mem_filter]
  · intro hd
    rw [perform_destroy_eq_none w inst hd]

/-- Witness for `perform_destroy_cleanup` at a concrete two-task world
sharing one data record. -/
theorem perform_destroy_cleanup_witness :
    Dirname.taskDir 1 ∉
      (perform_destroy
        { tasks := [{ id := 1, data_id := some 10 },
                    { id := 2, data_id := some 10 }]
          datas := [10]
          dirs := [Dirname.taskDir 1, Dirname.taskDir 2, Dirname.dataDir 10] }
        { id := 1, data_id := some 10 }).dirs ∧
    (perform_destroy
        { tasks := [{ id := 1, data_id := some 10 },
                    { id := 2, data_id := some 10 }]
          datas := [10]
          dirs := [Dirname.taskDir 1, Dirname.taskDir 2, Dirname.dataDir 10] }
        { id := 1, data_id := some 10 }).datas = [10] := by
  have h := perform_destroy_cleanup
    { tasks := [{ id := 1, data_id := some 10 },
                { id := 2, data_id := some 10 }]
      datas := [10]
      dirs := [Dirname.taskDir 1, Dirname.taskDir 2, Dirname.dataDir 10] }
    { id := 1, data_id := some 10 }
  refine ⟨h.1, ?_⟩
  have h2 := (h.2.1 10 rfl).2
    ⟨{ id := 2, data_id := some 10 }, by simp, by decide, rfl⟩
  exact h2.1

/-- C6 (amended): every job identifier the views pass to `enqueue_call` or
`fetch_job` either begins with `/api/` (dataset import and export ids, the
annotation-export ids and the task-status id) or — for the annotation-upload
ids — is the requesting user's name followed by `@` and an `/api/`-prefixed
path.  The export ids carry a trailing `/<format_name>` component and the
task-status id has no operation component, so not every id has the exact
`/api/<resource>/<id>/<operation>` shape. -/
theorem rq_id_shapes (pk : Nat) (format_name user : String) :
    starts_with_api (project_dataset_import_rq_id pk) ∧
    starts_with_api (project_dataset_export_rq_id pk format_name) ∧
    starts_with_api (project_annotations_rq_id pk format_name) ∧
    starts_with_api (task_annotations_export_rq_id pk format_name) ∧
    starts_with_api (task_dataset_export_rq_id pk format_name) ∧
    starts_with_api (task_status_rq_id pk) ∧
    (∃ rest, starts_with_api rest ∧
      task_annotations_upload_rq_id user pk = user ++ ("@" ++ rest)) ∧
    (∃ rest, starts_with_api rest ∧
      job_annotations_upload_rq_id user pk = user ++ ("@" ++ rest)) := by
  refine ⟨⟨"project/" ++ toString pk ++ "/dataset_import", ?_⟩,
    ⟨"project/" ++ toString pk ++ "/dataset/" ++ format_name, ?_⟩,
    ⟨"projects/" ++ toString pk ++ "/annotations/" ++ format_name, ?_⟩,
    ⟨"tasks/" ++ toString pk ++ "/annotations/" ++ format_name, ?_⟩,
    ⟨"tasks/" ++ toString pk ++ "/dataset/" ++ format_name, ?_⟩,
    ⟨"tasks/" ++ toString pk, ?_⟩,
    ⟨"/api/" ++ ("tasks/" ++ toString pk ++ "/annotations/upload"),
      ⟨"tasks/" ++ toString pk ++ "/annotations/upload", rfl⟩, ?_⟩,
    ⟨"/api/" ++ ("jobs/" ++ toString pk ++ "/annotations/upload"),
      ⟨"jobs/" ++ toString pk ++ "/annotations/upload", rfl⟩, ?_⟩⟩
  · unfold project_dataset_import_rq_id
    rw [show ("/api/project/" : String) = "/api/" ++ "project/" from rfl]
    simp only [String.append_assoc]
  · unfold project_dataset_export_rq_id
    rw [show ("/api/project/" : String) = "/api/" ++ "project/" from rfl]
    simp only [String.append_assoc]
  · unfold project_annotations_rq_id
    rw [show ("/api/projects/" : String) = "/api/" ++ "projects/" from rfl]
    simp only [String.append_assoc]
  · unfold task_annotations_export_rq_id
    rw [show ("/api/tasks/" : String) = "/api/" ++ "tasks/" from rfl]
    simp only [String.append_assoc]
  · unfold task_dataset_export_rq_id
    rw [show ("/api/tasks/" : String) = "/api/" ++ "tasks/" from rfl]
    simp only [String.append_assoc]
  · unfold task_status_rq_id
    rw [show ("/api/tasks/" : String) = "/api/" ++ "tasks/" from rfl]
    simp only [String.append_assoc]
  · unfold task_annotations_upload_rq_id
    rw [show ("@/api/tasks/" : String) = ("@" ++ "/api/" ++ "tasks/" : String)
      from rfl]
    simp only [String.append_assoc]
  · unfold job_annotations_upload_rq_id
    rw [show ("@/api/jobs/" : String) = ("@" ++ "/api/" ++ "jobs/" : String)
      from rfl]
    simp only [String.append_assoc]

/-- C6 (counterexample): the annotation-upload job id is prefixed with the
requesting user's name and an `@`, so it does not have the
`/api/<resource>/<id>/<operation>` form (its first character is not `/`). -/
theorem upload_rq_id_counterexample :
    ¬ isApiJobIdForm (task_annotations_upload_rq_id "admin" 5) := by
  rintro ⟨r, i, o, -, -, -, heq⟩
  have h1 : (task_annotations_upload_rq_id "admin" 5).data.head? =
      some 'a' := rfl
  rw [heq] at h1
  have h2 : ("/api/" ++ r ++ "/" ++ i ++ "/" ++ o).data.head? = some '/' := rfl
  have h3 := h1.symm.trans h2
  simp at h3

/-- C7: polling a project dataset import with `action=import_status`:
no job under the id answers 404; a finished job has its temporary file
removed, is deleted, and answers 201; a job neither finished nor failed
answers 202 carrying the relayed job status. -/
theorem dataset_import_status_poll (job : Option RqJob) :
    (job = none → project_dataset_import_status job =
      { response := .code404 }) ∧
    (∀ j, job = some j → j.is_finished = true →
      project_dataset_import_status job =
        { response := .code201, deleted_job := true, removed_tmp := true }) ∧
    (∀ j, job = some j → j.is_finished = false → j.is_failed = false →
      project_dataset_import_status job =
        { response :=
            .code202Data (ProjectViewSet_get_rq_response (some j)) }) := by
  refine ⟨?_, ?_, ?_⟩
  · rintro rfl
    rfl
  · rintro j rfl hfin
    unfold project_dataset_import_status
    show (if j.is_finished = true then _ else _) = _
    rw [hfin, if_pos rfl]
  · rintro j rfl hfin hfail
    unfold project_dataset_import_status
    show (if j.is_finished = true then _ else _) = _
    rw [hfin, if_neg (by simp), hfail, if_neg (by simp)]

/-- Witness for `dataset_import_status_poll` at a concrete finished job and
the absent job. -/
theorem dataset_import_status_poll_witness :
    project_dataset_import_status none = { response := .code404 } ∧
    project_dataset_import_status
        (some { is_finished := true, meta_tmp_file := some "/tmp/cvat_9",
                meta_tmp_fd := some 4 }) =
      { response := .code201, deleted_job := true, removed_tmp := true } := by
  have h := dataset_import_status_poll none
  have h2 := dataset_import_status_poll
    (some { is_finished := true, meta_tmp_file := some "/tmp/cvat_9",
            meta_tmp_fd := some 4 })
  exact ⟨h.1 rfl, h2.2.1 _ rfl rfl⟩

/-- C8 (amended): the share endpoint lists entries only for an existing
directory whose normalized absolute path has `SHARE_ROOT` as a string
prefix; any parameter failing the prefix check or not naming an existing
directory is answered with HTTP 400 and nothing is listed.  The string
prefix check also admits sibling directories whose name extends
`SHARE_ROOT`'s final component, so it is weaker than true containment. -/
theorem share_listing_confinement (env : ShareEnv) (p : Option String) :
    (∀ d, ServerViewSet_share env p = .listing d →
      py_startswith d env.share_root = true ∧ d ∈ env.dirs ∧
      d = share_directory env p) ∧
    (¬(py_startswith (share_directory env p) env.share_root = true ∧
        share_directory env p ∈ env.dirs) →
      ServerViewSet_share env p = .badRequest (share_param p)) := by
  constructor
  · intro d h
    simp only [ServerViewSet_share] at h
    by_cases hc : py_startswith (share_directory env p) env.share_root = true ∧
        share_directory env p ∈ env.dirs
    · rw [if_pos hc] at h
      cases h
      exact ⟨hc.1, hc.2, rfl⟩
    · rw [if_neg hc] at h
      exact absurd h (by simp)
  · intro hc
    simp only [ServerViewSet_share]
    rw [if_neg hc]

/-- C8 (counterexample): with `SHARE_ROOT = /home/django/share` and an
existing sibling directory `/home/django/share2`, the parameter `../share2`
normalizes to `/home/django/share2`, which escapes `SHARE_ROOT` but passes
the `startswith` check and is listed. -/
theorem share_escape_counterexample :
    ServerViewSet_share share_env_c8 (some "../share2") =
      .listing "/home/django/share2" ∧
    lies_under "/home/django/share2" share_env_c8.share_root = false := by
  decide

/-- Witness for `share_listing_confinement` at a directory inside the
root. -/
theorem share_listing_confinement_witness :
    py_startswith "/share/a" "/share" = true ∧
    "/share/a" ∈ ["/share/a"] := by
  have h := (share_listing_confinement
    { share_root := "/share", dirs := ["/share/a"] } (some "a")).1
    "/share/a" (by decide)
  exact ⟨h.1, h.2.1⟩

/-- C9 (amended): constructing a `DataChunkGetter` with type `chunk` or
`frame` raises a `ValidationError` unless a number is given and the quality
is `compressed` or `original`; serving a `frame` request raises a
`ValidationError` when the number is outside `[start, stop]`, and so does a
`context_image` request when a number was supplied — but a `context_image`
request without a number raises a `TypeError` (Python compares `None` with
an integer), not a `ValidationError`; a `chunk` request raises a
`ValidationError` when the number is outside the chunk-number range derived
from `start` and `stop`. -/
theorem data_chunk_getter_validation :
    (∀ (dt : String) (data_num : Option Int) (data_quality task_dim : String),
      dt = "chunk" ∨ dt = "frame" →
      (data_num = none →
        DataChunkGetter_init (some dt) data_num data_quality task_dim =
          .error (.validation "Number is not specified")) ∧
      (data_num ≠ none → data_quality ∉ possible_quality_values →
        DataChunkGetter_init (some dt) data_num data_quality task_dim =
          .error (.validation "Wrong quality value")) ∧
      (data_num ≠ none → data_quality ∈ possible_quality_values →
        DataChunkGetter_init (some dt) data_num data_quality task_dim =
          .ok { type := dt, number := data_num
                quality := if data_quality = "compressed" then .compressed
                  else .original
                dimension := task_dim })) ∧
    (∀ (g : DataChunkGetter) (env : ServeEnv) (start stop n : Int),
      env.db_data_present = true →
      (g.type = "frame" → g.number = some n → ¬(start ≤ n ∧ n ≤ stop) →
        DataChunkGetter_call g env start stop =
          .error (.validation ("The frame number should be in [" ++
            toString start ++ ", " ++ toString stop ++ "] range"))) ∧
      (g.type = "context_image" → g.number = some n →
        ¬(start ≤ n ∧ n ≤ stop) →
        DataChunkGetter_call g env start stop =
          .error (.validation ("The frame number should be in [" ++
            toString start ++ ", " ++ toString stop ++ "] range"))) ∧
      (g.type = "context_image" → g.number = none →
        DataChunkGetter_call g env start stop = .error .typeErr) ∧
      (g.type = "chunk" → g.number = some n →
        ¬(env.chunk_number_of start ≤ n ∧ n ≤ env.chunk_number_of stop) →
        DataChunkGetter_call g env start stop =
          .error (.validation ("The chunk number should be in [" ++
            toString (env.chunk_number_of start) ++ ", " ++
            toString (env.chunk_number_of stop) ++ "] range")))) := by
  constructor
  · intro dt data_num data_quality task_dim hdt
    have hguard :
        DataChunkGetter_init (some dt) data_num data_quality task_dim =
          (if data_num = none then
            Except.error (.validation "Number is not specified")
          else if data_quality ∉ possible_quality_values then
            Except.error (.validation "Wrong quality value")
          else
            Except.ok
              { type := dt, number := data_num
                quality := if data_quality = "compressed" then .compressed
                  else .original
                dimension := task_dim }) := by
      rcases hdt with rfl | rfl
      · unfold DataChunkGetter_init
        rw [if_neg (by decide), if_pos (by decide)]
        simp only [Option.getD_some]
      · unfold DataChunkGetter_init
        rw [if_neg (by decide), if_pos (by decide)]
        simp only [Option.getD_some]
    refine ⟨?_, ?_, ?_⟩
    · intro hnum
      rw [hguard, if_pos hnum]
    · intro hnum hqual
      rw [hguard, if_neg hnum, if_pos hqual]
    · intro hnum hqual
      rw [hguard, if_neg hnum, if_neg (not_not_intro hqual)]
  · intro g env start stop n hdb
    refine ⟨?_, ?_, ?_, ?_⟩
    · intro ht hn hout
      unfold DataChunkGetter_call
      rw [if_neg (by simp [hdb]), ht, if_neg (by decide), if_pos (by decide),
        hn]
      show (if ¬(start ≤ n ∧ n ≤ stop) then _ else _) = _
      rw [if_pos hout]
    · intro ht hn hout
      unfold DataChunkGetter_call
      rw [if_neg (by simp [hdb]), ht, if_neg (by decide), if_neg (by decide),
        if_neg (by decide), if_pos (by decide), hn]
      show (if ¬(start ≤ n ∧ n ≤ stop) then _ else _) = _
      rw [if_pos hout]
    · intro ht hn
      unfold DataChunkGetter_call
      rw [if_neg (by simp [hdb]), ht, if_neg (by decide), if_neg (by decide),
        if_neg (by decide), if_pos (by decide), hn]
    · intro ht hn hout
      unfold DataChunkGetter_call
      rw [if_neg (by simp [hdb]), ht, if_pos (by decide), hn]
      show (if ¬(env.chunk_number_of start ≤ n ∧
          n ≤ env.chunk_number_of stop) then _ else _) = _
      rw [if_pos hout]

/-- C9 (counterexample): a `context_image` getter is constructible without a
number, and serving it then raises a `TypeError`, not the `ValidationError`
the claim requires for an out-of-range (here: absent) number. -/
theorem chunk_getter_typeerror_counterexample :
    DataChunkGetter_init (some "context_image") none "original" "2d" =
      .ok ctx_getter_c9 ∧
    DataChunkGetter_call ctx_getter_c9 serve_env_c9 0 10 = .error .typeErr ∧
    (Except.error PyErr.typeErr : Except PyErr ServeResp) ≠
      .error (.validation "The frame number should be in [0, 10] range") := by
  refine ⟨rfl, rfl, ?_⟩
  intro h
  injection h with h2
  exact PyErr.noConfusion h2

/-- Witness for `data_chunk_getter_validation` at concrete inputs: a
`frame` getter without a number is rejected at construction, and a `frame`
getter with the out-of-range number 99 is rejected at serving time. -/
theorem data_chunk_getter_validation_witness :
    DataChunkGetter_init (some "frame") none "original" "2d" =
      .error (.validation "Number is not specified") ∧
    DataChunkGetter_call
        { type := "frame", number := some 99, quality := .original
          dimension := "2d" } serve_env_c9 0 10 =
      .error (.validation "The frame number should be in [0, 10] range") := by
  constructor
  · exact ((data_chunk_getter_validation.1 "frame" none "original" "2d"
      (Or.inr rfl)).1 rfl)
  · have h := (data_chunk_getter_validation.2
      { type := "frame", number := some 99, quality := .original
        dimension := "2d" } serve_env_c9 0 10 99 rfl).1 rfl rfl (by omega)
    simpa using h

/-- C10: importing a project dataset with a known enabled format answers
HTTP 409 with body "Import job already exists" and enqueues nothing when a
job with the same id already exists in any state; a new import job is
enqueued (answering 202) only when no such job exists. -/
theorem import_dataset_conflict (env : ImportEnv) (fd : Format)
    (hfmt : find_format env.formats env.format_name = some fd)
    (hen : fd.enabled = true) :
    (∀ j, env.cached_job = some j →
      _import_project_dataset env =
        { response := .code409 "Import job already exists" }) ∧
    (env.cached_job = none → env.serializer_valid = true →
      _import_project_dataset env =
        { response := .code202
          enqueued := some
            { job_id := env.rq_id
              meta_tmp_file := some env.tmp_file
              meta_tmp_fd := some env.tmp_fd } }) ∧
    ((_import_project_dataset env).enqueued ≠ none →
      env.cached_job = none) := by
  have h409 : ∀ j, env.cached_job = some j →
      _import_project_dataset env =
        { response := .code409 "Import job already exists" } := by
    intro j hjob
    unfold _import_project_dataset
    rw [hfmt]
    show (if ¬fd.enabled then _ else _) = _
    rw [if_neg (by simp [hen]), hjob]
  refine ⟨h409, ?_, ?_⟩
  · intro hnone hval
    unfold _import_project_dataset
    rw [hfmt]
    show (if ¬fd.enabled then _ else _) = _
    rw [if_neg (by simp [hen]), hnone]
    show (if env.serializer_valid = true then _ else _) = _
    rw [hval, if_pos rfl]
  · intro hne
    cases hjob : env.cached_job with
    | none => rfl
    | some j =>
      rw [h409 j hjob] at hne
      simp at hne

/-- Witness for `import_dataset_conflict`: a concrete conflicting request
and a concrete fresh request. -/
theorem import_dataset_conflict_witness :
    _import_project_dataset
        { formats := demo_formats
          format_name := "CVAT for images 1.1"
          rq_id := project_dataset_import_rq_id 7
          cached_job := some { is_queued := true }
          serializer_valid := true
          serializer_errors := ""
          tmp_file := "/tmp/cvat_7a"
          tmp_fd := 5 } =
      { response := .code409 "Import job already exists" } ∧
    _import_project_dataset
        { formats := demo_formats
          format_name := "CVAT for images 1.1"
          rq_id := project_dataset_import_rq_id 7
          cached_job := none
          serializer_valid := true
          serializer_errors := ""
          tmp_file := "/tmp/cvat_7a"
          tmp_fd := 5 } =
      { response := .code202
        enqueued := some
          { job_id := project_dataset_import_rq_id 7
            meta_tmp_file := some "/tmp/cvat_7a"
            meta_tmp_fd := some 5 } } := by
  constructor
  · exact (import_dataset_conflict
      { formats := demo_formats
        format_name := "CVAT for images 1.1"
        rq_id := project_dataset_import_rq_id 7
        cached_job := some { is_queued := true }
        serializer_valid := true
        serializer_errors := ""
        tmp_file := "/tmp/cvat_7a"
        tmp_fd := 5 }
      { display_name := "CVAT for images 1.1", enabled := true }
      rfl rfl).1 _ rfl
  · exact ((import_dataset_conflict
      { formats := demo_formats
        format_name := "CVAT for images 1.1"
        rq_id := project_dataset_import_rq_id 7
        cached_job := none
        serializer_valid := true
        serializer_errors := ""
        tmp_file := "/tmp/cvat_7a"
        tmp_fd := 5 }
      { display_name := "CVAT for images 1.1", enabled := true }
      rfl rfl).2.1) rfl rfl
